import Mathlib

/-!
Verification of the portfolio aggregation service (src/api/index.py).

The service exposes `GET /api/portfolio` and `GET /api/market-data`.
We embed the request handlers as pure Lean functions over the upstream
payloads.  Python floats are modelled as rationals; a numeric JSON field
that may be absent and is read with `.get(key, 0)` is modelled as a total
field whose value is the default when absent, while fields read with a
`None` default are modelled as `Option`.
-/

/-- Raw balance entry returned by `GET /user/balance/` (the fields the
handler reads: `asset_id`, `balance`, `available_balance`). -/
structure RawBalance where
  asset_id : Nat
  balance : ℚ
  available_balance : ℚ
deriving DecidableEq

/-- Raw asset descriptor returned by `GET /markets/assets/` (fields `id`,
`code`, `name`). -/
structure RawAsset where
  id : Nat
  code : String
  name : String
deriving DecidableEq

/-- Raw rate entry returned by `GET /live/rates/`.  `bid_usd`, `change_24h`
and `change_7d` may be absent from the payload, which the handler observes
through `.get` defaults, so they are `Option`s. -/
structure RawRate where
  asset : Nat
  bid : ℚ
  bid_usd : Option ℚ
  change_24h : Option ℚ
  volume_24h : ℚ
  change_7d : Option ℚ
deriving DecidableEq

/-- Pydantic model `AssetBalance` (one portfolio line item). -/
structure AssetBalance where
  asset_id : Nat
  code : String
  name : String
  balance : ℚ
  available_balance : ℚ
  usd_value : ℚ
  aud_value : ℚ
  last_price : ℚ
  change_24h : Option ℚ
deriving DecidableEq

/-- Pydantic model `PortfolioSummary`, the `/api/portfolio` response body.
`last_updated` (a `datetime.utcnow()` timestamp) is modelled as an opaque
natural number supplied by the caller. -/
structure PortfolioSummary where
  total_aud_value : ℚ
  total_usd_value : ℚ
  assets : List AssetBalance
  last_updated : Nat
deriving DecidableEq

/-- Pydantic model `MarketData` (one `/api/market-data` entry). -/
structure MarketData where
  asset_id : Nat
  code : String
  name : String
  last_price : ℚ
  change_24h : ℚ
  change_7d : Option ℚ
  volume_24h : ℚ
deriving DecidableEq

/-- Model of `rates_dict = {r['asset']: r for r in rates}` followed by
`rates_dict.get(aid)`: a Python dict comprehension keeps the LAST entry
for a duplicated key, hence the lookup over the reversed list. -/
def ratesLookup (rts : List RawRate) (aid : Nat) : Option RawRate :=
  rts.reverse.find? (fun r => r.asset == aid)

/-- Model of `assets_dict = {a['id']: a for a in assets}` followed by
`assets_dict.get(aid)` (last entry wins for duplicate ids). -/
def assetsLookup (ass : List RawAsset) (aid : Nat) : Option RawAsset :=
  ass.reverse.find? (fun a => a.id == aid)

/-- Body of the `/api/portfolio` loop for one balance entry: resolves the
asset descriptor and rate entry, computes `last_price` (`bid` or 0 when the
rate is missing), `aud_value`, the USD rate (`bid_usd` when present, else
`last_price * 0.65`), and builds the `AssetBalance` line item. -/
def mkLineItem (ass : List RawAsset) (rts : List RawRate) (b : RawBalance) :
    AssetBalance :=
  let rate_info := ratesLookup rts b.asset_id
  let last_price : ℚ :=
    match rate_info with
    | some r => r.bid
    | none => 0
  let usd_rate : ℚ :=
    match rate_info with
    | some r =>
        match r.bid_usd with
        | some u => u
        | none => last_price * (65 / 100)
    | none => last_price * (65 / 100)
  { asset_id := b.asset_id
    code :=
      match assetsLookup ass b.asset_id with
      | some a => a.code
      | none => "UNKNOWN"
    name :=
      match assetsLookup ass b.asset_id with
      | some a => a.name
      | none => "Unknown Asset"
    balance := b.balance
    available_balance := b.available_balance
    usd_value := b.balance * usd_rate
    aud_value := b.balance * last_price
    last_price := last_price
    change_24h :=
      match rate_info with
      | some r => r.change_24h
      | none => none }

/-- The balance entries that survive the `if balance.get('balance', 0) <= 0:
continue` guard. -/
def portfolio_included (bals : List RawBalance) : List RawBalance :=
  bals.filter (fun b => !(decide (b.balance ≤ 0)))

/-- The `portfolio_assets` list in loop (encounter) order, before sorting. -/
def portfolio_items (bals : List RawBalance) (ass : List RawAsset)
    (rts : List RawRate) : List AssetBalance :=
  (portfolio_included bals).map (mkLineItem ass rts)

/-- Sort relation used by `portfolio_assets.sort(key=lambda x: x.aud_value,
reverse=True)`: descending by `aud_value`. -/
def audGE (x y : AssetBalance) : Prop := y.aud_value ≤ x.aud_value

instance : DecidableRel audGE :=
  fun x y => inferInstanceAs (Decidable (y.aud_value ≤ x.aud_value))

instance : IsTotal AssetBalance audGE :=
  ⟨fun a b => le_total b.aud_value a.aud_value⟩

instance : IsTrans AssetBalance audGE :=
  ⟨fun _ _ _ h1 h2 => le_trans h2 h1⟩

/-- The `/api/portfolio` handler on successfully fetched payloads: filter
positive balances, build line items, accumulate the two totals, sort the
items by `aud_value` descending with a stable sort (Python `list.sort` is
stable, and documented to remain stable under `reverse=True`). -/
def get_portfolio (bals : List RawBalance) (ass : List RawAsset)
    (rts : List RawRate) (t : Nat) : PortfolioSummary :=
  { total_aud_value :=
      ((portfolio_items bals ass rts).map (fun it => it.aud_value)).sum
    total_usd_value :=
      ((portfolio_items bals ass rts).map (fun it => it.usd_value)).sum
    assets := List.insertionSort audGE (portfolio_items bals ass rts)
    last_updated := t }

/-- Failure of one outbound call: `httpx.raise_for_status` raises
`HTTPStatusError` carrying the upstream status code; any other exception
is modelled as `network`. -/
inductive FetchError where
  | httpStatus (code : Nat)
  | network
deriving DecidableEq

/-- HTTP status produced by the `except` clauses of `get_portfolio`: an
`HTTPStatusError` is re-raised as an `HTTPException` echoing the upstream
status code, and any other exception becomes a 500. -/
def FetchError.toStatus : FetchError → Nat
  | .httpStatus c => c
  | .network => 500

/-- Outcome of the three upstream fetches performed by one request
(`get_balances`, `get_assets`, `get_live_rates`).  One `FetchCycle` is
consumed per request: the handler has no cache and no retry, so it never
reuses or refetches a cycle. -/
structure FetchCycle where
  balances : Except FetchError (List RawBalance)
  assets : Except FetchError (List RawAsset)
  rates : Except FetchError (List RawRate)

/-- First failing fetch of a cycle, in the order the tasks are passed to
`asyncio.gather` (balances, assets, rates).  `gather` propagates a failing
task's exception; when several fail the choice among them is timing
dependent, and we determinize to this order. -/
def firstFetchError (c : FetchCycle) : Option FetchError :=
  match c.balances with
  | .error e => some e
  | .ok _ =>
    match c.assets with
    | .error e => some e
    | .ok _ =>
      match c.rates with
      | .error e => some e
      | .ok _ => none

/-- The `/api/portfolio` handler including its `try`/`except` wrapper: on a
fully successful fetch cycle it returns the computed summary, otherwise an
`HTTPException` with the status derived from the first failing fetch. -/
def handle_portfolio (c : FetchCycle) (t : Nat) : Except Nat PortfolioSummary :=
  match c.balances, c.assets, c.rates with
  | .ok b, .ok a, .ok r => .ok (get_portfolio b a r t)
  | .error e, _, _ => .error e.toStatus
  | .ok _, .error e, _ => .error e.toStatus
  | .ok _, .ok _, .error e => .error e.toStatus

/-- A sequence of requests served by the module: the handler keeps no state
between requests (the module has no cache variable), so each request is
answered from its own fetch cycle and timestamp. -/
def serve : List (FetchCycle × Nat) → List (Except Nat PortfolioSummary)
  | [] => []
  | (c, t) :: rest => handle_portfolio c t :: serve rest

/-- One outbound HTTP call made by `SwyftxClient` (method, path, and the
token placed in the `Authorization: Bearer ...` header). -/
structure OutboundCall where
  method : String
  path : String
  bearer : String
deriving DecidableEq

/-- The call issued by `SwyftxClient.get_balances`: a GET of
`/user/balance/` whose bearer token is the static API key stored in the
client constructor (no token exchange happens anywhere in the client). -/
def get_balances_call (k : String) : OutboundCall :=
  ⟨"GET", "/user/balance/", k⟩

/-- The call issued by `SwyftxClient.get_assets`. -/
def get_assets_call (k : String) : OutboundCall :=
  ⟨"GET", "/markets/assets/", k⟩

/-- The call issued by `SwyftxClient.get_live_rates`. -/
def get_live_rates_call (k : String) : OutboundCall :=
  ⟨"GET", "/live/rates/", k⟩

/-- The complete outbound traffic of one `/api/portfolio` request, in the
order the coroutines are created: exactly the three data fetches. -/
def portfolio_outbound_calls (k : String) : List OutboundCall :=
  [get_balances_call k, get_assets_call k, get_live_rates_call k]

/-- A JSON field value of the `/api/portfolio` response body. -/
inductive JField where
  | num (q : ℚ)
  | items (l : List AssetBalance)
  | timestamp (t : Nat)
deriving DecidableEq

/-- Serialization of the `PortfolioSummary` pydantic response model: the
response body holds exactly the four declared model fields, keyed by their
field names. -/
def PortfolioSummary.toResponse (s : PortfolioSummary) :
    List (String × JField) :=
  [("total_aud_value", JField.num s.total_aud_value),
   ("total_usd_value", JField.num s.total_usd_value),
   ("assets", JField.items s.assets),
   ("last_updated", JField.timestamp s.last_updated)]

/-- Body of the `/api/market-data` loop for one rate entry. -/
def mkMarketEntry (ass : List RawAsset) (r : RawRate) : MarketData :=
  { asset_id := r.asset
    code :=
      match assetsLookup ass r.asset with
      | some a => a.code
      | none => "UNKNOWN"
    name :=
      match assetsLookup ass r.asset with
      | some a => a.name
      | none => "Unknown"
    last_price := r.bid
    change_24h := (r.change_24h).getD 0
    change_7d := r.change_7d
    volume_24h := r.volume_24h }

/-- The `market_data` list in loop (encounter) order, one entry per rate. -/
def market_entries (ass : List RawAsset) (rts : List RawRate) :
    List MarketData :=
  rts.map (mkMarketEntry ass)

/-- Sort relation of `market_data.sort(key=lambda x: x.volume_24h,
reverse=True)`: descending by 24h volume. -/
def volGE (x y : MarketData) : Prop := y.volume_24h ≤ x.volume_24h

instance : DecidableRel volGE :=
  fun x y => inferInstanceAs (Decidable (y.volume_24h ≤ x.volume_24h))

instance : IsTotal MarketData volGE :=
  ⟨fun a b => le_total b.volume_24h a.volume_24h⟩

instance : IsTrans MarketData volGE :=
  ⟨fun _ _ _ h1 h2 => le_trans h2 h1⟩

/-- The full sorted market list, before truncation. -/
def market_sorted (ass : List RawAsset) (rts : List RawRate) :
    List MarketData :=
  List.insertionSort volGE (market_entries ass rts)

/-- The `/api/market-data` handler on successfully fetched payloads: build
one entry per rate, sort by volume descending (stable), return the first
50 (`market_data[:50]`). -/
def get_market_data (ass : List RawAsset) (rts : List RawRate) :
    List MarketData :=
  (market_sorted ass rts).take 50

/-- Membership in the sorted `/api/portfolio` line item list: exactly the
line items built from balance entries with strictly positive `balance`. -/
theorem mem_portfolio_assets (bals : List RawBalance) (ass : List RawAsset)
    (rts : List RawRate) (t : Nat) (it : AssetBalance) :
    it ∈ (get_portfolio bals ass rts t).assets ↔
      ∃ b, b ∈ bals ∧ 0 < b.balance ∧ mkLineItem ass rts b = it := by
  simp only [get_portfolio, List.mem_insertionSort, portfolio_items,
    portfolio_included, List.mem_map, List.mem_filter, Bool.not_eq_true',
    decide_eq_false_iff_not, not_le]
  constructor
  · rintro ⟨b, ⟨hb, hpos⟩, hmk⟩
    exact ⟨b, hb, hpos, hmk⟩
  · rintro ⟨b, hb, hpos, hmk⟩
    exact ⟨b, ⟨hb, hpos⟩, hmk⟩

/-- Claim C1 (counterexample): with one held balance (quantity 5 > 0) and an
empty rates payload, no resolved price exists for asset 1, yet the asset is
NOT dropped: it appears in the summary as a zero-priced line item. -/
theorem C1_counterexample :
    ratesLookup [] 1 = none ∧
    (get_portfolio [⟨1, 5, 5⟩] [] [] 0).assets.map
        (fun it => (it.asset_id, it.last_price, it.aud_value))
      = [(1, 0, 0)] := by
  refine ⟨rfl, ?_⟩
  norm_num [get_portfolio, portfolio_items, portfolio_included, mkLineItem,
    ratesLookup, assetsLookup, List.find?, List.filter, List.insertionSort,
    List.orderedInsert]

/-- Claim C1 (amended): a line item appears exactly for the balance entries
whose quantity is strictly positive; a held asset with no rate entry is not
dropped but appears with `last_price = 0` and `aud_value = 0`. -/
theorem C1_line_items (bals : List RawBalance) (ass : List RawAsset)
    (rts : List RawRate) (t : Nat) :
    (∀ it ∈ (get_portfolio bals ass rts t).assets, 0 < it.balance) ∧
    (∀ b ∈ bals, 0 < b.balance →
      ∃ it ∈ (get_portfolio bals ass rts t).assets,
        it.asset_id = b.asset_id ∧ it.balance = b.balance ∧
        (ratesLookup rts b.asset_id = none →
          it.last_price = 0 ∧ it.aud_value = 0)) := by
  constructor
  · intro it hit
    obtain ⟨b, _, hpos, rfl⟩ := (mem_portfolio_assets bals ass rts t it).1 hit
    simpa [mkLineItem] using hpos
  · intro b hb hpos
    refine ⟨mkLineItem ass rts b,
      (mem_portfolio_assets bals ass rts t _).2 ⟨b, hb, hpos, rfl⟩,
      rfl, rfl, ?_⟩
    intro hnone
    simp [mkLineItem, hnone]

/-- Witness for C1: instantiates the amended theorem on the concrete
counterexample input. -/
theorem C1_line_items_witness :
    ∃ it ∈ (get_portfolio [⟨1, 5, 5⟩] [] [] 0).assets,
      it.asset_id = 1 ∧ it.balance = 5 ∧
      (ratesLookup [] 1 = none → it.last_price = 0 ∧ it.aud_value = 0) :=
  (C1_line_items [⟨1, 5, 5⟩] [] [] 0).2 ⟨1, 5, 5⟩ (List.mem_singleton.mpr rfl)
    (by norm_num)

/-- Claim C2 (counterexample): two requests 30 seconds apart (30 < 60) are
each answered from their own upstream fetch cycle; with a changed upstream
bid the second response differs from the first, so the second call is not a
byte-identical cached reply and the upstream fetchers ran again. -/
theorem C2_counterexample :
    (30 : Nat) < 60 ∧
    serve [(⟨.ok [⟨1, 1, 1⟩], .ok [], .ok [⟨1, 10, none, none, 0, none⟩]⟩, 0),
           (⟨.ok [⟨1, 1, 1⟩], .ok [], .ok [⟨1, 20, none, none, 0, none⟩]⟩, 30)]
      = [.ok (get_portfolio [⟨1, 1, 1⟩] [] [⟨1, 10, none, none, 0, none⟩] 0),
         .ok (get_portfolio [⟨1, 1, 1⟩] [] [⟨1, 20, none, none, 0, none⟩] 30)] ∧
    (get_portfolio [⟨1, 1, 1⟩] [] [⟨1, 20, none, none, 0, none⟩] 30).total_aud_value
      ≠ (get_portfolio [⟨1, 1, 1⟩] [] [⟨1, 10, none, none, 0, none⟩] 0).total_aud_value := by
  refine ⟨by norm_num, rfl, ?_⟩
  norm_num [get_portfolio, portfolio_items, portfolio_included, mkLineItem,
    ratesLookup, assetsLookup, List.find?, List.filter]

/-- Claim C2 (amended): the module holds no cache; the i-th response of any
request sequence is computed from the i-th fetch cycle alone, so every
request, at whatever time, performs its own upstream round-trip. -/
theorem C2_no_cache (reqs : List (FetchCycle × Nat)) (i : Nat) :
    (serve reqs)[i]? = (reqs[i]?).map (fun p => handle_portfolio p.1 p.2) := by
  induction reqs generalizing i with
  | nil => simp [serve]
  | cons hd tl ih =>
    obtain ⟨c, t⟩ := hd
    cases i with
    | zero => simp [serve]
    | succ n => simpa [serve] using ih n

/-- Claim C3 (counterexample): the response for a concrete request carries
exactly the four declared model fields; `total_change_24h` is not among
them. -/
theorem C3_counterexample :
    (get_portfolio [] [] [] 0).toResponse.map Prod.fst
      = ["total_aud_value", "total_usd_value", "assets", "last_updated"] ∧
    "total_change_24h" ∉ (get_portfolio [] [] [] 0).toResponse.map Prod.fst := by
  exact ⟨rfl, by decide⟩

/-- Claim C3 (amended): every `/api/portfolio` response body consists of
the fields `total_aud_value`, `total_usd_value`, `assets`, `last_updated`;
no `total_change_24h` field exists (and no weighted 24h change is computed
anywhere in the handler). -/
theorem C3_response_fields (s : PortfolioSummary) :
    s.toResponse.map Prod.fst
      = ["total_aud_value", "total_usd_value", "assets", "last_updated"] ∧
    "total_change_24h" ∉ s.toResponse.map Prod.fst := by
  refine ⟨rfl, ?_⟩
  rw [show s.toResponse.map Prod.fst
      = ["total_aud_value", "total_usd_value", "assets", "last_updated"] from rfl]
  decide

/-- Claim C4 (counterexample): at the concrete key "KEY", the outbound
traffic of a portfolio request is three GETs; no request to
`/auth/refresh/` occurs, and the balance call carries the static API key
itself as the bearer token. -/
theorem C4_counterexample :
    (portfolio_outbound_calls "KEY").map (fun c => c.path)
      = ["/user/balance/", "/markets/assets/", "/live/rates/"] ∧
    "/auth/refresh/" ∉ (portfolio_outbound_calls "KEY").map (fun c => c.path) ∧
    (get_balances_call "KEY").bearer = "KEY" := by
  exact ⟨rfl, by decide, rfl⟩

/-- Claim C4 (amended): for every static API key, a portfolio request
issues exactly the three data GETs (`/user/balance/`, `/markets/assets/`,
`/live/rates/`), each authorized directly with the static key as bearer
token; no short-lived credential is obtained or used. -/
theorem C4_static_bearer (k : String) :
    (portfolio_outbound_calls k).map (fun c => (c.method, c.path))
      = [("GET", "/user/balance/"), ("GET", "/markets/assets/"),
         ("GET", "/live/rates/")] ∧
    ∀ c ∈ portfolio_outbound_calls k, c.bearer = k := by
  refine ⟨rfl, ?_⟩
  intro c hc
  simp only [portfolio_outbound_calls, get_balances_call, get_assets_call,
    get_live_rates_call, List.mem_cons, List.not_mem_nil, or_false] at hc
  rcases hc with rfl | rfl | rfl <;> rfl

/-- Witness for C4: the balance call of a concrete request uses the static
key as its bearer token. -/
theorem C4_static_bearer_witness :
    (get_balances_call "APIKEY").bearer = "APIKEY" :=
  (C4_static_bearer "APIKEY").2 (get_balances_call "APIKEY")
    (List.mem_cons_self _ _)

/-- Claim C5 (counterexample): a balance entry with total `balance = 1` but
`available_balance = 0` (an available quantity that is not positive) DOES
appear in the output: the guard tests the `balance` field, not the
available quantity. -/
theorem C5_counterexample :
    (get_portfolio [⟨1, 1, 0⟩] [] [] 0).assets.map
        (fun it => (it.asset_id, it.balance, it.available_balance))
      = [(1, 1, 0)] := by
  norm_num [get_portfolio, portfolio_items, portfolio_included, mkLineItem,
    ratesLookup, assetsLookup, List.find?, List.filter, List.insertionSort,
    List.orderedInsert]

/-- Claim C5 (amended): the output line items are exactly the entries of
the balance list whose total `balance` field is strictly positive; in
particular every line item has positive total balance, but nothing
constrains its `available_balance`. -/
theorem C5_total_balance_filter (bals : List RawBalance) (ass : List RawAsset)
    (rts : List RawRate) (t : Nat) :
    ((get_portfolio bals ass rts t).assets).Perm
      ((bals.filter (fun b => !(decide (b.balance ≤ 0)))).map
        (mkLineItem ass rts)) ∧
    ∀ it ∈ (get_portfolio bals ass rts t).assets, 0 < it.balance := by
  constructor
  · exact List.perm_insertionSort audGE (portfolio_items bals ass rts)
  · intro it hit
    obtain ⟨b, _, hpos, rfl⟩ := (mem_portfolio_assets bals ass rts t it).1 hit
    simpa [mkLineItem] using hpos

/-- Witness for C5: instantiates the amended theorem on the concrete
counterexample input. -/
theorem C5_total_balance_filter_witness :
    0 < (mkLineItem [] [] ⟨1, 1, 0⟩).balance :=
  (C5_total_balance_filter [⟨1, 1, 0⟩] [] [] 0).2 (mkLineItem [] [] ⟨1, 1, 0⟩)
    ((mem_portfolio_assets [⟨1, 1, 0⟩] [] [] 0 _).2
      ⟨⟨1, 1, 0⟩, List.mem_singleton.mpr rfl, by norm_num, rfl⟩)

/-- Claim C6: the `/api/portfolio` line items are sorted by `aud_value` in
descending order, and any two line items with equal value keep their
original encounter order from the (filtered) balance list: a tied pair
that is a sublist of the pre-sort item list stays a sublist of the sorted
output. -/
theorem C6_sorted_stable (bals : List RawBalance) (ass : List RawAsset)
    (rts : List RawRate) (t : Nat) :
    ((get_portfolio bals ass rts t).assets).Sorted audGE ∧
    ∀ a b : AssetBalance, a.aud_value = b.aud_value →
      List.Sublist [a, b] (portfolio_items bals ass rts) →
      List.Sublist [a, b] ((get_portfolio bals ass rts t).assets) := by
  constructor
  · exact List.sorted_insertionSort audGE (portfolio_items bals ass rts)
  · intro a b hval hsub
    exact List.pair_sublist_insertionSort
      (show audGE a b from le_of_eq hval.symm) hsub

/-- Witness for C6: three held assets with values 10, 100, 10; the two
value-10 items are tied and keep their encounter order in the sorted
output. -/
theorem C6_sorted_stable_witness :
    List.Sublist
      [(⟨1, "UNKNOWN", "Unknown Asset", 2, 2, 8, 10, 5, none⟩ : AssetBalance),
       (⟨3, "UNKNOWN", "Unknown Asset", 2, 2, 6, 10, 5, none⟩ : AssetBalance)]
      ((get_portfolio [⟨1, 2, 2⟩, ⟨2, 1, 1⟩, ⟨3, 2, 2⟩] []
        [⟨1, 5, some 4, none, 0, none⟩, ⟨2, 100, some 60, none, 0, none⟩,
         ⟨3, 5, some 3, none, 0, none⟩] 0).assets) :=
  (C6_sorted_stable [⟨1, 2, 2⟩, ⟨2, 1, 1⟩, ⟨3, 2, 2⟩] []
      [⟨1, 5, some 4, none, 0, none⟩, ⟨2, 100, some 60, none, 0, none⟩,
       ⟨3, 5, some 3, none, 0, none⟩] 0).2 _ _ rfl
    (by
      have h : portfolio_items [⟨1, 2, 2⟩, ⟨2, 1, 1⟩, ⟨3, 2, 2⟩] []
          [⟨1, 5, some 4, none, 0, none⟩, ⟨2, 100, some 60, none, 0, none⟩,
           ⟨3, 5, some 3, none, 0, none⟩]
          = [⟨1, "UNKNOWN", "Unknown Asset", 2, 2, 8, 10, 5, none⟩,
             ⟨2, "UNKNOWN", "Unknown Asset", 1, 1, 60, 100, 100, none⟩,
             ⟨3, "UNKNOWN", "Unknown Asset", 2, 2, 6, 10, 5, none⟩] := by
        norm_num [portfolio_items, portfolio_included, mkLineItem,
          ratesLookup, assetsLookup, List.find?_cons_of_pos,
          List.find?_cons_of_neg, List.filter]
      rw [h]
      exact List.Sublist.cons₂ _ (List.Sublist.cons _
        (List.Sublist.cons₂ _ List.Sublist.slnil)))

/-- Claim C7: the stored totals equal the sums of the line item values
(the sort permutes the items, leaving both sums unchanged), and the empty
balance list yields zero totals and an empty asset list. -/
theorem C7_totals (bals : List RawBalance) (ass : List RawAsset)
    (rts : List RawRate) (t : Nat) :
    (get_portfolio bals ass rts t).total_aud_value
      = (((get_portfolio bals ass rts t).assets).map
          (fun it => it.aud_value)).sum ∧
    (get_portfolio bals ass rts t).total_usd_value
      = (((get_portfolio bals ass rts t).assets).map
          (fun it => it.usd_value)).sum ∧
    (get_portfolio [] ass rts t).total_aud_value = 0 ∧
    (get_portfolio [] ass rts t).total_usd_value = 0 ∧
    (get_portfolio [] ass rts t).assets = [] := by
  refine ⟨?_, ?_, rfl, rfl, rfl⟩
  · exact (((List.perm_insertionSort audGE
      (portfolio_items bals ass rts)).map (fun it => it.aud_value)).sum_eq).symm
  · exact (((List.perm_insertionSort audGE
      (portfolio_items bals ass rts)).map (fun it => it.usd_value)).sum_eq).symm

/-- Claim C8: when an upstream fetch of a request fails, the request
terminates with an `HTTPException` whose status echoes the upstream status
(500 for a non-HTTP failure), the failing cycle is consumed exactly once
(no retry), and later requests are entirely unaffected (there is no cached
state a failure could corrupt).  When several fetches fail simultaneously,
`asyncio.gather` surfaces one of them; the model determinizes to the order
balances, assets, rates. -/
theorem C8_error_handling (c : FetchCycle) (t : Nat) (e : FetchError)
    (h : firstFetchError c = some e) :
    handle_portfolio c t = .error e.toStatus ∧
    ∀ rest, serve ((c, t) :: rest) = Except.error e.toStatus :: serve rest := by
  have hh : handle_portfolio c t = .error e.toStatus := by
    obtain ⟨b | b, a | a, r | r⟩ := c <;>
      simp_all [firstFetchError, handle_portfolio]
  exact ⟨hh, fun rest => by simp [serve, hh]⟩

/-- Witness for C8: a 401 from the balance endpoint surfaces as a 401
response. -/
theorem C8_error_handling_witness :
    handle_portfolio
      ⟨Except.error (FetchError.httpStatus 401), Except.ok [], Except.ok []⟩ 0
      = Except.error 401 :=
  (C8_error_handling
    ⟨Except.error (FetchError.httpStatus 401), Except.ok [], Except.ok []⟩ 0
    (FetchError.httpStatus 401) rfl).1

/-- Claim C9 (counterexample): two held assets with the same AUD value 100
get USD values 70 (from the upstream `bid_usd` field) and 65 (from the
`0.65` fallback), so no single fixed constant relates USD to AUD values. -/
theorem C9_counterexample :
    (get_portfolio [⟨1, 1, 1⟩, ⟨2, 1, 1⟩] []
        [⟨1, 100, some 70, none, 0, none⟩, ⟨2, 100, none, none, 0, none⟩]
        0).assets.map (fun it => (it.aud_value, it.usd_value))
      = [(100, 70), (100, 65)] ∧
    ¬ ∃ r : ℚ,
        ∀ p ∈ (get_portfolio [⟨1, 1, 1⟩, ⟨2, 1, 1⟩] []
            [⟨1, 100, some 70, none, 0, none⟩, ⟨2, 100, none, none, 0, none⟩]
            0).assets.map (fun it => (it.aud_value, it.usd_value)),
          p.2 = p.1 * r := by
  have heval :
      (get_portfolio [⟨1, 1, 1⟩, ⟨2, 1, 1⟩] []
          [⟨1, 100, some 70, none, 0, none⟩, ⟨2, 100, none, none, 0, none⟩]
          0).assets.map (fun it => (it.aud_value, it.usd_value))
        = [(100, 70), (100, 65)] := by
    norm_num [get_portfolio, portfolio_items, portfolio_included, mkLineItem,
      ratesLookup, assetsLookup, List.find?_cons_of_pos,
      List.find?_cons_of_neg, List.filter, List.insertionSort,
      List.orderedInsert, audGE]
  refine ⟨heval, ?_⟩
  rintro ⟨r, hr⟩
  have h1 := hr (100, 70) (by rw [heval]; simp)
  have h2 := hr (100, 65) (by rw [heval]; simp)
  simp only at h1 h2
  have h3 : (70 : ℚ) = 65 := h1.trans h2.symm
  norm_num at h3

/-- Claim C9 (amended): the USD value of a line item is `balance × bid_usd`
when the rate entry carries a `bid_usd` field; only when that field is
absent (or the whole rate entry is missing) does the fixed fallback apply,
giving `usd_value = aud_value × 0.65`. -/
theorem C9_usd_conversion (bals : List RawBalance) (ass : List RawAsset)
    (rts : List RawRate) (t : Nat) :
    ∀ it ∈ (get_portfolio bals ass rts t).assets,
      ((ratesLookup rts it.asset_id).bind (fun r => r.bid_usd) = none →
        it.usd_value = it.aud_value * (65 / 100)) ∧
      (∀ u, (ratesLookup rts it.asset_id).bind (fun r => r.bid_usd) = some u →
        it.usd_value = it.balance * u) := by
  intro it hit
  obtain ⟨b, _, _, rfl⟩ := (mem_portfolio_assets bals ass rts t it).1 hit
  have hid : (mkLineItem ass rts b).asset_id = b.asset_id := rfl
  rw [hid]
  cases hrl : ratesLookup rts b.asset_id with
  | none =>
    constructor
    · intro _
      simp only [mkLineItem, hrl]
      ring
    · intro u hu
      simp [hrl] at hu
  | some r =>
    cases hbu : r.bid_usd with
    | none =>
      constructor
      · intro _
        simp only [mkLineItem, hrl, hbu]
        ring
      · intro u hu
        simp [hrl, hbu] at hu
    | some u0 =>
      constructor
      · intro hn
        simp [hrl, hbu] at hn
      · intro u hu
        simp only [hrl, Option.some_bind, hbu, Option.some.injEq] at hu
        subst hu
        simp only [mkLineItem, hrl, hbu]

/-- Witness for C9: a rate entry carrying `bid_usd = 4` yields a line item
whose USD value is its balance times 4 (not its AUD value times 0.65). -/
theorem C9_usd_conversion_witness :
    (mkLineItem [] [⟨1, 5, some 4, some 1, 0, none⟩] ⟨1, 2, 2⟩).usd_value
      = (mkLineItem [] [⟨1, 5, some 4, some 1, 0, none⟩] ⟨1, 2, 2⟩).balance
          * 4 :=
  ((C9_usd_conversion [⟨1, 2, 2⟩] [] [⟨1, 5, some 4, some 1, 0, none⟩] 0)
      (mkLineItem [] [⟨1, 5, some 4, some 1, 0, none⟩] ⟨1, 2, 2⟩)
      ((mem_portfolio_assets [⟨1, 2, 2⟩] [] [⟨1, 5, some 4, some 1, 0, none⟩] 0
          _).2 ⟨⟨1, 2, 2⟩, List.mem_singleton.mpr rfl, by norm_num, rfl⟩)).2
    4 rfl

/-- Claim C10: the `/api/market-data` response has at most 50 entries, is
sorted by 24h volume in descending order, and is the 50-entry prefix of
the stable descending sort of the full entry list (one entry per rate),
hence the top 50 of all rate entries by volume. -/
theorem C10_market_top50 (ass : List RawAsset) (rts : List RawRate) :
    (get_market_data ass rts).length ≤ 50 ∧
    (get_market_data ass rts).Sorted volGE ∧
    (market_sorted ass rts).Sorted volGE ∧
    (market_sorted ass rts).Perm (market_entries ass rts) ∧
    get_market_data ass rts = (market_sorted ass rts).take 50 := by
  refine ⟨?_, ?_, ?_, ?_, rfl⟩
  · exact List.length_take_le 50 (market_sorted ass rts)
  · exact List.Pairwise.sublist (List.take_sublist 50 (market_sorted ass rts))
      (List.sorted_insertionSort volGE (market_entries ass rts))
  · exact List.sorted_insertionSort volGE (market_entries ass rts)
  · exact List.perm_insertionSort volGE (market_entries ass rts)
